import Mathlib

/-!
Shallow embedding of the QuickTalk voice-to-text recorder
(src/simple_transcriber.py, src/simple_visual_indicators.py,
src/session_logger.py).

Modelling conventions:
* Python module-level globals (`recording`, `audio_frames`, `stream`,
  `auto_stop_timer`, `recording_start_time`, plus the presence of the
  optional `visual_indicator` / `session_logger` collaborators) become the
  fields of `AppState`.
* Python float values (audio samples, wall-clock readings from
  `time.time()` / `datetime`, durations) are modelled as integer-valued
  reals, i.e. `Int`: no claim depends on fractional values, and `Int`
  keeps every statement kernel-decidable.  A delivered audio chunk is a
  `List Int`, the frame buffer is a `List (List Int)`.
* Calls into external collaborators (logging, tray/notifications, session
  log, clipboard, paste, stream, timer, whisper engine, temp-file removal)
  are recorded as an ordered `List Event`.
* Fallible externals that the source explicitly handles (the three WAV
  serialization methods, `model.transcribe`, and the `os.remove` of the
  `finally` block, whose failure is caught and logged) are modelled by
  environment flags / an `EngineResult`; other primitive effects
  (`stream.stop`, `pyperclip.copy`, ...) are modelled as succeeding.
* Python truthiness of an optional float (`if recording_start_time:`,
  `if recording_duration:`) is `optTruthy`: `None` and `0.0` are falsy.
-/

namespace QuickTalk

/-- Python truthiness of an optional numeric value: `None` and `0.0` are
falsy, every other float is truthy. -/
def optTruthy : Option Int → Bool
  | none => false
  | some t => t != 0

/-- Python `str.strip()`: drop whitespace from both ends of the string
(computed on the character list so that it reduces in the kernel). -/
def pyStrip (s : String) : String :=
  ⟨((s.data.dropWhile Char.isWhitespace).reverse.dropWhile Char.isWhitespace).reverse⟩

/-- One observable external interaction of the application: a call into a
collaborator, the audio stream, the timer, the engine, the clipboard, or
the filesystem, in program order. -/
inductive Event where
  | logDebug (msg : String)
  | logInfo (msg : String)
  | logWarning (msg : String)
  | logError (msg : String)
  | visualStart
  | visualStop
  | visualComplete (text : String)
  | visualError (msg : String)
  | timerArm (seconds : Nat)
  | timerCancel
  | streamStart
  | streamStop
  | streamClose
  | engineInvoke (samples : List Int)
  | sessionLogTranscription (text : String) (duration : Option Int) (startedAt : Option Int)
  | sessionLogError (msg : String) (startedAt : Option Int)
  | clipboardCopy (text : String)
  | pasteAtCursor
  | wavWrite
  | wavRemove
  | notification (title : String) (msg : String)
  deriving Repr, DecidableEq

/-- Outcome of `model.transcribe(audio_np, fp16=False)`: either a result
dict whose `text` entry is `text` (before `.strip()`), or a raised
exception with message `msg`. -/
inductive EngineResult where
  | ok (text : String)
  | err (msg : String)
  deriving Repr, DecidableEq

/-- Number of events in `evs` satisfying `p`. -/
def countP (p : Event → Bool) (evs : List Event) : Nat :=
  (evs.filter p).length

def isEngineInvoke : Event → Bool
  | Event.engineInvoke _ => true
  | _ => false

def isClipboardCopy : Event → Bool
  | Event.clipboardCopy _ => true
  | _ => false

def isPaste : Event → Bool
  | Event.pasteAtCursor => true
  | _ => false

def isSessionLogEvent : Event → Bool
  | Event.sessionLogTranscription _ _ _ => true
  | Event.sessionLogError _ _ => true
  | _ => false

def isVisualError : Event → Bool
  | Event.visualError _ => true
  | _ => false

def isTimerArm : Event → Bool
  | Event.timerArm _ => true
  | _ => false

/-- The module-level mutable state of `simple_transcriber.py`:
`recording`, `audio_frames`, `stream` (`streamOpen` models `stream` being
a live object rather than `None`), the armed auto-stop timer,
`recording_start_time`, whether the temp WAV artifact currently exists at
`TEMP_WAV_PATH`, and whether the optional `visual_indicator` /
`session_logger` collaborators were initialized (together with the
`ENABLE_*` flags, which are `True`). -/
structure AppState where
  recording : Bool
  audio_frames : List (List Int)
  streamOpen : Bool
  timerArmed : Bool
  recording_start_time : Option Int
  tempFileExists : Bool
  visualPresent : Bool
  loggerPresent : Bool
  deriving Repr, DecidableEq

/-- `MAX_DURATION_SEC = 1800`. -/
def MAX_DURATION_SEC : Nat := 1800

/-- Environment of one `stop_recording_and_transcribe` call: whether the
`soundfile` import succeeds, whether each of the three WAV write methods
succeeds, the engine outcome, the `time.time()` reading used for the
duration computation, and whether the `os.remove` in the `finally` block
succeeds. -/
structure StopEnv where
  soundfileAvailable : Bool
  soundfileWriteOk : Bool
  scipyWriteOk : Bool
  waveWriteOk : Bool
  engineResult : EngineResult
  now : Int
  removeOk : Bool
  deriving Repr, DecidableEq

/-- `audio_callback(indata, frames, time, status)`: warn on a stream
status, then append the chunk to `audio_frames` iff `recording` is set. -/
def audio_callback (st : AppState) (indata : List Int) (status : Option String) :
    AppState × List Event :=
  let ev : List Event :=
    match status with
    | some s => [Event.logWarning ("Audio status: " ++ s)]
    | none => []
  if st.recording then
    ({ st with audio_frames := st.audio_frames ++ [indata] }, ev)
  else
    (st, ev)

/-- Environment of one `start_recording` call: whether
`sd.InputStream(...)` construction and `.start()` succeed, and the
`time.time()` reading taken at start. -/
structure StartEnv where
  streamOpenOk : Bool
  now : Int
  deriving Repr, DecidableEq

/-- `start_recording()`: no-op (apart from a debug log) when already
recording; otherwise reset the buffer, set the flag and start time, then
try to open the stream; on success update indicators and arm the
auto-stop timer, on failure clear the flag and log errors. -/
def start_recording (st0 : AppState) (env : StartEnv) : AppState × List Event :=
  if st0.recording then
    (st0, [Event.logDebug "start_recording called while already recording."])
  else
    let st1 : AppState :=
      { st0 with audio_frames := [], recording := true,
                 recording_start_time := some env.now }
    if env.streamOpenOk then
      let ev : List Event :=
        [Event.streamStart, Event.logInfo "Recording started... (max 30 min)"]
        ++ (if st1.visualPresent then [Event.visualStart] else [])
        ++ [Event.timerArm MAX_DURATION_SEC]
      ({ st1 with streamOpen := true, timerArmed := true }, ev)
    else
      ({ st1 with recording := false },
       [Event.logError "Failed to start recording",
        Event.logError "Make sure your microphone is connected and accessible."])

/-- The WAV-saving cascade of `stop_recording_and_transcribe`: soundfile
(if importable), then scipy, then the `wave` module; returns whether
`wav_saved` ended up `True` together with the emitted events. -/
def saveWav (env : StopEnv) : Bool × List Event :=
  let m1 : Bool × List Event :=
    if env.soundfileAvailable then
      if env.soundfileWriteOk then
        (true, [Event.wavWrite, Event.logInfo "WAV file saved using soundfile library"])
      else
        (false, [Event.logWarning "soundfile failed, falling back to scipy"])
    else
      (false, [Event.logInfo "soundfile not available, falling back to scipy"])
  if m1.1 then m1
  else
    let m2 : Bool × List Event :=
      if env.scipyWriteOk then
        (true, [Event.wavWrite, Event.logInfo "WAV file saved using scipy"])
      else
        (false, [Event.logError "scipy WAV write failed"])
    if m2.1 then (true, m1.2 ++ m2.2)
    else
      let m3 : Bool × List Event :=
        if env.waveWriteOk then
          (true, [Event.wavWrite, Event.logInfo "WAV file saved using wave module"])
        else
          (false, [Event.logError "wave module failed"])
      (m3.1, m1.2 ++ m2.2 ++ m3.2)

/-- The `finally:` block of `stop_recording_and_transcribe`: when the
temp WAV file exists, `os.remove` is attempted inside a `try/except` —
on success the file is gone and a debug line is logged, on failure the
exception is caught, a warning is logged, and the artifact remains. -/
def cleanupTemp (removeOk : Bool) (st : AppState) (evs : List Event) :
    AppState × List Event :=
  if st.tempFileExists then
    if removeOk then
      ({ st with tempFileExists := false },
       evs ++ [Event.wavRemove, Event.logDebug "Cleaned up temp file"])
    else
      (st, evs ++ [Event.wavRemove, Event.logWarning "Could not remove temp file"])
  else
    (st, evs)

/-- The indicator / timer / stream section at the head of
`stop_recording_and_transcribe` (lines after the guard and the
`recording = False` assignment): call `visual_indicator.stop_recording()`
when present, cancel a live auto-stop timer, and stop and close a live
stream. -/
def stopIndicatorsAndStream (st1 : AppState) : AppState × List Event :=
  let ev1 : List Event := if st1.visualPresent then [Event.visualStop] else []
  let p2 : AppState × List Event :=
    if st1.timerArmed then ({ st1 with timerArmed := false }, ev1 ++ [Event.timerCancel])
    else (st1, ev1)
  if p2.1.streamOpen then
    ({ p2.1 with streamOpen := false }, p2.2 ++ [Event.streamStop, Event.streamClose])
  else (p2.1, p2.2)

/-- The inner `try` of `stop_recording_and_transcribe` around
`model.transcribe`: the collaborator calls made after the engine either
raises (`except` branch: log-failure plus presentation error), returns
whitespace-only text (no-speech branch), or returns non-empty stripped
text (session log with duration and start time, completion event,
clipboard copy, paste). -/
def transcriptionOutcomeEvents (st4 : AppState) (env : StopEnv) : List Event :=
  let startedAt : Option Int :=
    if optTruthy st4.recording_start_time then st4.recording_start_time else none
  match env.engineResult with
  | EngineResult.err msg =>
      [Event.logError ("Transcription error: " ++ msg)]
      ++ (if st4.loggerPresent then
            [Event.sessionLogError ("Transcription failed: " ++ msg) startedAt]
          else [])
      ++ (if st4.visualPresent then [Event.visualError "Transcription failed"] else [])
  | EngineResult.ok raw =>
      let text := (pyStrip raw)
      if text = "" then
        [Event.logWarning "No speech detected in recording."]
        ++ (if st4.loggerPresent then
              [Event.sessionLogError "No speech detected in recording" startedAt]
            else [])
        ++ (if st4.visualPresent then
              [Event.visualError "No speech detected in recording"]
            else [])
      else
        let duration : Option Int :=
          if optTruthy st4.recording_start_time then
            some (env.now - st4.recording_start_time.getD 0)
          else none
        (if st4.loggerPresent then
           [Event.sessionLogTranscription text duration startedAt]
         else [])
        ++ (if st4.visualPresent then [Event.visualComplete text] else [])
        ++ [Event.clipboardCopy text, Event.pasteAtCursor]

/-- `stop_recording_and_transcribe()`: guard on `recording`, clear the
flag, update indicators, cancel a live auto-stop timer, then inside the
`try` block close the stream, bail out on an empty buffer, serialize the
WAV, invoke the engine, and dispatch on the stripped result text; the
`finally` block (`cleanupTemp`) removes the temp artifact on every path
of the `try`. -/
def stop_recording_and_transcribe (st0 : AppState) (env : StopEnv) :
    AppState × List Event :=
  if st0.recording then
    let p3 : AppState × List Event := stopIndicatorsAndStream { st0 with recording := false }
    if p3.1.audio_frames.isEmpty then
      cleanupTemp env.removeOk p3.1 (p3.2 ++ [Event.logWarning "No audio data recorded."])
    else
      let save := saveWav env
      let ev4 : List Event := p3.2 ++ [Event.logInfo "Processing audio..."] ++ save.2
      if save.1 then
        let st4 : AppState := { p3.1 with tempFileExists := true }
        cleanupTemp env.removeOk st4
          (ev4 ++ [Event.logInfo "WAV file verified",
                   Event.engineInvoke p3.1.audio_frames.flatten]
           ++ transcriptionOutcomeEvents st4 env)
      else
        cleanupTemp env.removeOk p3.1 (ev4 ++ [Event.logError "All WAV writing methods failed!"])
  else
    (st0, [Event.logDebug "stop_recording called with no active recording."])

namespace SimpleVisualIndicator

/-- State of a `SimpleVisualIndicator`: the fields of
`simple_visual_indicators.SimpleVisualIndicator` that the time-warning
monitor reads and writes. -/
structure MonitorState where
  max_duration_sec : Int
  recording : Bool
  start_time : Option Int
  warning_30_shown : Bool
  warning_10_shown : Bool
  deriving Repr, DecidableEq

/-- One iteration of `_monitor_recording_time`, observed at wall-clock
time `now`: when recording with a truthy start time, compute
`remaining = max(0, max_duration_sec - elapsed)` and fire each warning
whose narrow window (`remaining <= T and remaining > T - 1`) is hit and
whose flag is not yet set. -/
def monitorTick (st : MonitorState) (now : Int) : MonitorState × List Event :=
  if st.recording && optTruthy st.start_time then
    let elapsed : Int := now - st.start_time.getD 0
    let remaining : Int := max 0 (st.max_duration_sec - elapsed)
    let p1 : MonitorState × List Event :=
      if remaining ≤ 30 ∧ remaining > 29 ∧ st.warning_30_shown = false then
        ({ st with warning_30_shown := true },
         [Event.notification "Recording Time Warning" "30 seconds remaining!"])
      else (st, [])
    let p2 : MonitorState × List Event :=
      if remaining ≤ 10 ∧ remaining > 9 ∧ p1.1.warning_10_shown = false then
        ({ p1.1 with warning_10_shown := true },
         [Event.notification "Recording Time Warning" "10 seconds remaining!"])
      else (p1.1, [])
    (p2.1, p1.2 ++ p2.2)
  else
    (st, [])

/-- The monitor loop of `_monitor_recording_time` run over the list of
wall-clock times at which its once-per-second iterations happen to be
scheduled. -/
def runMonitor (st : MonitorState) (times : List Int) : MonitorState × List Event :=
  match times with
  | [] => (st, [])
  | t :: rest =>
      let p := monitorTick st t
      let q := runMonitor p.1 rest
      (q.1, p.2 ++ q.2)

/-- `SimpleVisualIndicator.start_recording` restricted to the fields the
monitor uses: set `recording`, record `start_time`, and reset both
already-fired warning flags. -/
def start_recording (st : MonitorState) (now : Int) : MonitorState :=
  { st with recording := true, start_time := some now,
            warning_30_shown := false, warning_10_shown := false }

/-- Number of 30-seconds-remaining warning notifications in `evs`. -/
def countWarn30 (evs : List Event) : Nat :=
  countP (fun e =>
    decide (e = Event.notification "Recording Time Warning" "30 seconds remaining!")) evs

/-- Number of 10-seconds-remaining warning notifications in `evs`. -/
def countWarn10 (evs : List Event) : Nat :=
  countP (fun e =>
    decide (e = Event.notification "Recording Time Warning" "10 seconds remaining!")) evs

/-- Does a monitor iteration observed at wall-clock time `t` (for a
session of maximum duration `D` started at `start`) fall inside the
narrow 30-second window `remaining <= 30 and remaining > 29`? -/
def hits30 (D start t : Int) : Bool :=
  let remaining := max 0 (D - (t - start))
  decide (remaining ≤ 30 ∧ remaining > 29)

/-- The 10-second analogue of `hits30`. -/
def hits10 (D start t : Int) : Bool :=
  let remaining := max 0 (D - (t - start))
  decide (remaining ≤ 10 ∧ remaining > 9)

end SimpleVisualIndicator

namespace SessionLogger

/-- One `f.write(...)` performed on the session log file, carrying the
data interpolated into the written string. -/
inductive LogWrite where
  | sessionHeader (startTime : Int)
  | entryHeader (timestamp : Int) (count : Nat)
  | durationAnnot (d : Int)
  | headerNewline
  | quotedText (text : String)
  | separator
  | errorHeader (timestamp : Int) (count : Nat)
  | errorBody (msg : String)
  | noteLine (timestamp : Int) (note : String)
  | summary (endTime : Int) (duration : Int) (count : Nat)
  deriving Repr, DecidableEq

/-- The instance fields of `session_logger.SessionLogger`. -/
structure LoggerState where
  log_folder_path : String
  include_metadata : Bool
  session_file_path : Option String
  session_start_time : Option Int
  recording_count : Nat
  deriving Repr, DecidableEq

/-- Environment for `_create_session_file`: whether the log folder
already exists, whether `os.makedirs` succeeds, whether opening the new
session file succeeds, and the `datetime.now()` reading. -/
structure CreateEnv where
  folderExists : Bool
  makedirsOk : Bool
  openOk : Bool
  now : Int
  deriving Repr, DecidableEq

/-- `SessionLogger._create_session_file`: create the folder if needed,
pick a timestamped filename, write the header; any failure is caught and
leaves `session_file_path = None` with a `False` return. -/
def create_session_file (st : LoggerState) (env : CreateEnv) :
    Bool × LoggerState × List LogWrite :=
  if !env.folderExists && !env.makedirsOk then
    (false, { st with session_file_path := none }, [])
  else
    let st1 : LoggerState :=
      { st with session_start_time := some env.now,
                session_file_path :=
                  some (st.log_folder_path ++ "/VoiceToText_Session_"
                        ++ toString env.now ++ ".txt") }
    if env.openOk then (true, st1, [LogWrite.sessionHeader env.now])
    else (false, { st1 with session_file_path := none }, [])

/-- `SessionLogger.log_transcription(text, recording_duration,
recording_start_time)`: `False` with no write when no session file;
otherwise increment `recording_count`, default the start time to `now`,
and append the entry — the duration annotation is written only when
`include_metadata` holds and `recording_duration` is truthy.  A write
failure (`writeOk = false`) is caught and returns `False`. -/
def log_transcription (st : LoggerState) (text : String)
    (recording_duration : Option Int) (recording_start_time : Option Int)
    (now : Int) (writeOk : Bool) : Bool × LoggerState × List LogWrite :=
  match st.session_file_path with
  | none => (false, st, [])
  | some _ =>
      let st1 : LoggerState := { st with recording_count := st.recording_count + 1 }
      let rst : Int := recording_start_time.getD now
      if writeOk then
        (true, st1,
         [LogWrite.entryHeader rst st1.recording_count]
         ++ (if st1.include_metadata && QuickTalk.optTruthy recording_duration then
               [LogWrite.durationAnnot (recording_duration.getD 0)]
             else [])
         ++ [LogWrite.headerNewline, LogWrite.quotedText text, LogWrite.separator])
      else (false, st1, [])

/-- `SessionLogger.log_error(error_message, recording_start_time)`. -/
def log_error (st : LoggerState) (msg : String) (recording_start_time : Option Int)
    (now : Int) (writeOk : Bool) : Bool × LoggerState × List LogWrite :=
  match st.session_file_path with
  | none => (false, st, [])
  | some _ =>
      let st1 : LoggerState := { st with recording_count := st.recording_count + 1 }
      let rst : Int := recording_start_time.getD now
      if writeOk then
        (true, st1,
         [LogWrite.errorHeader rst st1.recording_count, LogWrite.errorBody msg,
          LogWrite.separator])
      else (false, st1, [])

/-- `SessionLogger.add_session_note(note)`. -/
def add_session_note (st : LoggerState) (note : String) (now : Int) (writeOk : Bool) :
    Bool × LoggerState × List LogWrite :=
  match st.session_file_path with
  | none => (false, st, [])
  | some _ =>
      if writeOk then
        (true, st, [LogWrite.noteLine now note, LogWrite.separator])
      else (false, st, [])

/-- `SessionLogger.close_session()`: append the session summary footer. -/
def close_session (st : LoggerState) (now : Int) (writeOk : Bool) :
    Bool × LoggerState × List LogWrite :=
  match st.session_file_path with
  | none => (false, st, [])
  | some _ =>
      let dur : Int := now - st.session_start_time.getD 0
      if writeOk then
        (true, st, [LogWrite.summary now dur st.recording_count])
      else (false, st, [])

/-- True when `w` is the duration annotation write. -/
def isDurationAnnot : LogWrite → Bool
  | LogWrite.durationAnnot _ => true
  | _ => false

end SessionLogger

/-! Concrete states and environments used to instantiate the theorems. -/

/-- A capturing session that has received one chunk of two samples. -/
def exCapturing : AppState :=
  { recording := true, audio_frames := [[3, 5]], streamOpen := true,
    timerArmed := true, recording_start_time := some 100,
    tempFileExists := false, visualPresent := true, loggerPresent := true }

/-- A capturing session with an empty sample buffer. -/
def exCapturingEmpty : AppState :=
  { exCapturing with audio_frames := [] }

/-- An idle state with no armed timer. -/
def exIdle : AppState :=
  { recording := false, audio_frames := [], streamOpen := false,
    timerArmed := false, recording_start_time := none,
    tempFileExists := false, visualPresent := true, loggerPresent := true }

/-- A stop environment in which serialization succeeds, the engine
returns `" hello world "`, and artifact removal succeeds. -/
def exEnvOk : StopEnv :=
  { soundfileAvailable := true, soundfileWriteOk := true, scipyWriteOk := true,
    waveWriteOk := true, engineResult := EngineResult.ok " hello world ", now := 102,
    removeOk := true }

/-- A stop environment in which all three WAV write methods fail. -/
def exEnvSaveFail : StopEnv :=
  { soundfileAvailable := false, soundfileWriteOk := false, scipyWriteOk := false,
    waveWriteOk := false, engineResult := EngineResult.ok "unreached", now := 102,
    removeOk := true }

/-- A stop environment in which serialization succeeds and the engine
raises an error. -/
def exEnvEngineErr : StopEnv :=
  { soundfileAvailable := true, soundfileWriteOk := true, scipyWriteOk := true,
    waveWriteOk := true, engineResult := EngineResult.err "boom", now := 102,
    removeOk := true }

/-- A stop environment in which everything succeeds except the final
`os.remove` of the temp artifact. -/
def exEnvRemoveFail : StopEnv :=
  { exEnvOk with removeOk := false }

/-- A fresh visual indicator for a 60-second maximum duration. -/
def exMonitor : SimpleVisualIndicator.MonitorState :=
  { max_duration_sec := 60, recording := false, start_time := none,
    warning_30_shown := false, warning_10_shown := false }

/-- A start environment in which opening the input stream fails. -/
def exStartFail : StartEnv :=
  { streamOpenOk := false, now := 100 }

/-- A logger whose session file was created. -/
def exLogger : SessionLogger.LoggerState :=
  { log_folder_path := "transcription_logs", include_metadata := true,
    session_file_path := some "transcription_logs/VoiceToText_Session_100.txt",
    session_start_time := some 100, recording_count := 0 }

/-- A logger whose session-file creation failed. -/
def exLoggerNoFile : SessionLogger.LoggerState :=
  { exLogger with session_file_path := none }

/-! Supporting lemmas. -/

theorem countP_append (p : Event → Bool) (a b : List Event) :
    countP p (a ++ b) = countP p a + countP p b := by
  simp [countP, List.filter_append]

theorem cleanupTemp_fst (removeOk : Bool) (st : AppState) (evs : List Event) :
    (cleanupTemp removeOk st evs).1
      = { st with tempFileExists := (!removeOk && st.tempFileExists) } := by
  unfold cleanupTemp
  repeat' split
  all_goals (cases st; simp_all)

theorem cleanupTemp_snd (removeOk : Bool) (st : AppState) (evs : List Event) :
    (cleanupTemp removeOk st evs).2
      = evs ++ (if st.tempFileExists then
                  (if removeOk then
                     [Event.wavRemove, Event.logDebug "Cleaned up temp file"]
                   else
                     [Event.wavRemove, Event.logWarning "Could not remove temp file"])
                else []) := by
  unfold cleanupTemp
  repeat' split
  all_goals simp_all

theorem countP_ite (p : Event → Bool) (c : Prop) [Decidable c] (a b : List Event) :
    countP p (if c then a else b) = if c then countP p a else countP p b := by
  split <;> rfl

theorem countP_nil (p : Event → Bool) : countP p [] = 0 := rfl

theorem countP_cons (p : Event → Bool) (e : Event) (l : List Event) :
    countP p (e :: l) = (if p e = true then 1 else 0) + countP p l := by
  by_cases h : p e = true <;>
    simp [countP, List.filter_cons, h, Nat.add_comm]

theorem stopIndicatorsAndStream_fst (st : AppState) :
    (stopIndicatorsAndStream st).1
      = { st with timerArmed := false, streamOpen := false } := by
  unfold stopIndicatorsAndStream
  repeat' split
  all_goals (cases st; simp_all)
  all_goals (split <;> simp_all)

theorem stopIndicatorsAndStream_snd (st : AppState) :
    (stopIndicatorsAndStream st).2
      = (if st.visualPresent then [Event.visualStop] else [])
        ++ (if st.timerArmed then [Event.timerCancel] else [])
        ++ (if st.streamOpen then [Event.streamStop, Event.streamClose] else []) := by
  unfold stopIndicatorsAndStream
  repeat' split
  all_goals simp_all

theorem stop_noop_when_not_recording (st : AppState) (env : StopEnv)
    (h : st.recording = false) :
    stop_recording_and_transcribe st env
      = (st, [Event.logDebug "stop_recording called with no active recording."]) := by
  unfold stop_recording_and_transcribe
  simp [h]

theorem stop_fst_recording (st : AppState) (env : StopEnv) :
    (stop_recording_and_transcribe st env).1.recording = false := by
  simp only [stop_recording_and_transcribe]
  repeat' split
  all_goals simp_all [cleanupTemp_fst, stopIndicatorsAndStream_fst]

theorem stop_fst_temp (st : AppState) (env : StopEnv) (hrec : st.recording = true)
    (hrem : env.removeOk = true) :
    (stop_recording_and_transcribe st env).1.tempFileExists = false := by
  simp only [stop_recording_and_transcribe]
  repeat' split
  all_goals simp_all [cleanupTemp_fst, stopIndicatorsAndStream_fst]

theorem transcriptionOutcome_engine_count (st : AppState) (env : StopEnv) :
    countP isEngineInvoke (transcriptionOutcomeEvents st env) = 0 := by
  simp only [transcriptionOutcomeEvents]
  repeat' split
  all_goals simp [countP_append, countP_ite, countP, List.filter, isEngineInvoke]

theorem saveWav_engine_count (env : StopEnv) :
    countP isEngineInvoke (saveWav env).2 = 0 := by
  simp only [saveWav]
  repeat' split
  all_goals simp [countP_append, countP, List.filter, isEngineInvoke]

theorem stop_engine_count (st : AppState) (env : StopEnv) (hrec : st.recording = true) :
    countP isEngineInvoke (stop_recording_and_transcribe st env).2
      = if st.audio_frames.isEmpty then 0 else if (saveWav env).1 then 1 else 0 := by
  simp only [stop_recording_and_transcribe, hrec, if_true,
             stopIndicatorsAndStream_fst, stopIndicatorsAndStream_snd, cleanupTemp_snd]
  repeat' split
  all_goals simp_all [cleanupTemp_snd, countP_append, countP_ite, countP_cons, countP_nil,
                      isEngineInvoke, saveWav_engine_count, transcriptionOutcome_engine_count]

theorem stop_empty_events (st : AppState) (env : StopEnv)
    (hrec : st.recording = true) (hempty : st.audio_frames = []) :
    (stop_recording_and_transcribe st env).2
      = (if st.visualPresent then [Event.visualStop] else [])
        ++ (if st.timerArmed then [Event.timerCancel] else [])
        ++ (if st.streamOpen then [Event.streamStop, Event.streamClose] else [])
        ++ [Event.logWarning "No audio data recorded."]
        ++ (if st.tempFileExists then
              (if env.removeOk then
                 [Event.wavRemove, Event.logDebug "Cleaned up temp file"]
               else
                 [Event.wavRemove, Event.logWarning "Could not remove temp file"])
            else []) := by
  simp only [stop_recording_and_transcribe, hrec, if_true,
             stopIndicatorsAndStream_fst, stopIndicatorsAndStream_snd, cleanupTemp_snd]
  simp [hempty, cleanupTemp_snd]

/-! Event-list characterizations of the remaining stop paths. -/

theorem stop_saved_events (st : AppState) (env : StopEnv)
    (hrec : st.recording = true) (hframes : st.audio_frames ≠ [])
    (hsave : (saveWav env).1 = true) :
    (stop_recording_and_transcribe st env).2
      = (stopIndicatorsAndStream { st with recording := false }).2
        ++ [Event.logInfo "Processing audio..."] ++ (saveWav env).2
        ++ [Event.logInfo "WAV file verified",
            Event.engineInvoke st.audio_frames.flatten]
        ++ transcriptionOutcomeEvents st env
        ++ (if env.removeOk then
              [Event.wavRemove, Event.logDebug "Cleaned up temp file"]
            else
              [Event.wavRemove, Event.logWarning "Could not remove temp file"]) := by
  have hcongr : transcriptionOutcomeEvents
      { st with recording := false, timerArmed := false, streamOpen := false,
                tempFileExists := true } env = transcriptionOutcomeEvents st env := rfl
  simp only [stop_recording_and_transcribe, hrec, if_true, stopIndicatorsAndStream_fst,
             cleanupTemp_snd]
  simp [hframes, hsave, List.isEmpty_iff, hcongr, cleanupTemp_snd]

theorem stop_savefail_events (st : AppState) (env : StopEnv)
    (hrec : st.recording = true) (hframes : st.audio_frames ≠ [])
    (hsave : (saveWav env).1 = false) :
    (stop_recording_and_transcribe st env).2
      = (stopIndicatorsAndStream { st with recording := false }).2
        ++ [Event.logInfo "Processing audio..."] ++ (saveWav env).2
        ++ [Event.logError "All WAV writing methods failed!"]
        ++ (if st.tempFileExists then
              (if env.removeOk then
                 [Event.wavRemove, Event.logDebug "Cleaned up temp file"]
               else
                 [Event.wavRemove, Event.logWarning "Could not remove temp file"])
            else []) := by
  simp only [stop_recording_and_transcribe, hrec, if_true, stopIndicatorsAndStream_fst,
             cleanupTemp_snd]
  simp [hframes, hsave, List.isEmpty_iff, cleanupTemp_snd]

theorem stopPrefix_count_eq_zero (st : AppState) (p : Event → Bool)
    (h1 : p Event.visualStop = false) (h2 : p Event.timerCancel = false)
    (h3 : p Event.streamStop = false) (h4 : p Event.streamClose = false) :
    countP p (stopIndicatorsAndStream st).2 = 0 := by
  rw [stopIndicatorsAndStream_snd]
  simp [countP_append, countP_ite, countP_cons, countP_nil, h1, h2, h3, h4]

theorem saveWav_count_eq_zero (env : StopEnv) (p : Event → Bool)
    (h1 : p Event.wavWrite = false)
    (h2 : ∀ m, p (Event.logInfo m) = false)
    (h3 : ∀ m, p (Event.logWarning m) = false)
    (h4 : ∀ m, p (Event.logError m) = false) :
    countP p (saveWav env).2 = 0 := by
  simp only [saveWav]
  repeat' split
  all_goals simp [countP_append, countP_cons, countP_nil, h1, h2, h3, h4]

theorem transcriptionOutcome_ok_events (st : AppState) (env : StopEnv)
    (raw : String) (t0 : Int)
    (heng : env.engineResult = EngineResult.ok raw) (htext : (pyStrip raw) ≠ "")
    (hstart : st.recording_start_time = some t0) (ht0 : t0 ≠ 0)
    (hlog : st.loggerPresent = true) (hvis : st.visualPresent = true) :
    transcriptionOutcomeEvents st env
      = [Event.sessionLogTranscription (pyStrip raw) (some (env.now - t0)) (some t0),
         Event.visualComplete (pyStrip raw), Event.clipboardCopy (pyStrip raw),
         Event.pasteAtCursor] := by
  simp [transcriptionOutcomeEvents, heng, htext, hstart, hlog, hvis, optTruthy, ht0]

theorem transcriptionOutcome_err_events (st : AppState) (env : StopEnv)
    (msg : String) (t0 : Int)
    (heng : env.engineResult = EngineResult.err msg)
    (hstart : st.recording_start_time = some t0) (ht0 : t0 ≠ 0)
    (hlog : st.loggerPresent = true) (hvis : st.visualPresent = true) :
    transcriptionOutcomeEvents st env
      = [Event.logError ("Transcription error: " ++ msg),
         Event.sessionLogError ("Transcription failed: " ++ msg) (some t0),
         Event.visualError "Transcription failed"] := by
  simp [transcriptionOutcomeEvents, heng, hstart, hlog, hvis, optTruthy, ht0]

/-! Claim theorems. -/

/-- C1: a stop request issued when no recording is in progress is a
no-op, so of two stop calls in quick succession on a capturing session
(the auto-stop timer racing a manual stop) only the first proceeds past
the guard: the second returns with the state unchanged having emitted
only a debug log, and exactly one engine invocation occurs for the
session. -/
theorem stop_twice_one_transcription (st : AppState) (env1 env2 : StopEnv)
    (hrec : st.recording = true) (hframes : st.audio_frames ≠ [])
    (hsave : (saveWav env1).1 = true) :
    (∀ (s : AppState) (env : StopEnv), s.recording = false →
        stop_recording_and_transcribe s env
          = (s, [Event.logDebug "stop_recording called with no active recording."]))
      ∧ stop_recording_and_transcribe (stop_recording_and_transcribe st env1).1 env2
          = ((stop_recording_and_transcribe st env1).1,
             [Event.logDebug "stop_recording called with no active recording."])
      ∧ countP isEngineInvoke (stop_recording_and_transcribe st env1).2 = 1 := by
  refine ⟨fun s env h => stop_noop_when_not_recording s env h,
          stop_noop_when_not_recording _ _ (stop_fst_recording st env1), ?_⟩
  rw [stop_engine_count st env1 hrec]
  simp [List.isEmpty_iff, hframes, hsave]

theorem stop_twice_one_transcription_witness :
    exCapturing.recording = true ∧ exCapturing.audio_frames ≠ [] ∧
    (saveWav exEnvOk).1 = true ∧
    countP isEngineInvoke (stop_recording_and_transcribe exCapturing exEnvOk).2 = 1 :=
  ⟨by decide, by decide, by decide,
   (stop_twice_one_transcription exCapturing exEnvOk exEnvOk (by decide) (by decide)
      (by decide)).2.2⟩

/-- C2: when the sample buffer is empty at stop time, the engine is
never invoked, nothing is copied to the clipboard or pasted, the
"no audio" warning is logged, and the controller is back in the idle
(not-recording) state. -/
theorem stop_empty_buffer_skips_engine (st : AppState) (env : StopEnv)
    (hrec : st.recording = true) (hempty : st.audio_frames = []) :
    countP isEngineInvoke (stop_recording_and_transcribe st env).2 = 0
      ∧ countP isClipboardCopy (stop_recording_and_transcribe st env).2 = 0
      ∧ countP isPaste (stop_recording_and_transcribe st env).2 = 0
      ∧ Event.logWarning "No audio data recorded." ∈ (stop_recording_and_transcribe st env).2
      ∧ (stop_recording_and_transcribe st env).1.recording = false := by
  have hev := stop_empty_events st env hrec hempty
  refine ⟨?_, ?_, ?_, ?_, stop_fst_recording st env⟩
  · rw [hev]; simp [countP_append, countP_ite, countP_cons, countP_nil, isEngineInvoke]
  · rw [hev]; simp [countP_append, countP_ite, countP_cons, countP_nil, isClipboardCopy]
  · rw [hev]; simp [countP_append, countP_ite, countP_cons, countP_nil, isPaste]
  · rw [hev]; simp

theorem stop_empty_buffer_skips_engine_witness :
    exCapturingEmpty.recording = true ∧ exCapturingEmpty.audio_frames = [] ∧
    countP isEngineInvoke (stop_recording_and_transcribe exCapturingEmpty exEnvOk).2 = 0 :=
  ⟨by decide, by decide,
   (stop_empty_buffer_skips_engine exCapturingEmpty exEnvOk (by decide) (by decide)).1⟩

/-- C3 counterexample: a capturing session with one frame, successful
serialization and transcription, whose final `os.remove` fails (the
source catches the exception and only logs a warning): the session
returns to idle (`recording = false`) with the artifact still on disk,
refuting the claimed on-disk nonexistence guarantee. -/
theorem artifact_can_remain_after_idle :
    exCapturing.audio_frames ≠ []
      ∧ (stop_recording_and_transcribe exCapturing exEnvRemoveFail).1.recording = false
      ∧ Event.logWarning "Could not remove temp file"
          ∈ (stop_recording_and_transcribe exCapturing exEnvRemoveFail).2
      ∧ (stop_recording_and_transcribe exCapturing exEnvRemoveFail).1.tempFileExists
          = true :=
  ⟨by decide, by decide, by decide, by decide⟩

/-- C3 (amended): for a stop that captured at least one frame, on every
exit path the `finally` block attempts cleanup — whenever the artifact
exists there (in particular whenever serialization succeeded) an
`os.remove` call is made — and whenever that removal succeeds the
artifact no longer exists once the session is back at idle; a removal
failure is caught, leaving the artifact behind. -/
theorem stop_artifact_cleanup_attempted (st : AppState) (env : StopEnv)
    (hrec : st.recording = true) (hframes : st.audio_frames ≠ []) :
    (env.removeOk = true →
        (stop_recording_and_transcribe st env).1.tempFileExists = false)
      ∧ ((saveWav env).1 = true ∨ st.tempFileExists = true →
          Event.wavRemove ∈ (stop_recording_and_transcribe st env).2) := by
  constructor
  · intro hrem
    exact stop_fst_temp st env hrec hrem
  · intro hart
    by_cases hsave : (saveWav env).1 = true
    · rw [stop_saved_events st env hrec hframes hsave]
      by_cases hrok : env.removeOk = true <;> simp [hrok]
    · have hsave2 : (saveWav env).1 = false := by
        cases h : (saveWav env).1
        · rfl
        · exact absurd h hsave
      have htemp : st.tempFileExists = true := by
        rcases hart with h | h
        · exact absurd h hsave
        · exact h
      rw [stop_savefail_events st env hrec hframes hsave2]
      by_cases hrok : env.removeOk = true <;> simp [hrok, htemp]

theorem stop_artifact_cleanup_attempted_witness :
    exCapturing.recording = true ∧ exCapturing.audio_frames ≠ []
      ∧ exEnvOk.removeOk = true
      ∧ (stop_recording_and_transcribe exCapturing exEnvOk).1.tempFileExists = false :=
  ⟨by decide, by decide, by decide,
   (stop_artifact_cleanup_attempted exCapturing exEnvOk (by decide) (by decide)).1
     (by decide)⟩

/-- C4: a chunk delivered to `audio_callback` is appended to the sample
buffer exactly when the recording flag is set, and since every stop
request leaves the flag cleared, any chunk delivered after a stop
request is dropped. -/
theorem audio_callback_appends_iff_recording (st : AppState) (chunk : List Int)
    (status : Option String) :
    ((audio_callback st chunk status).1.audio_frames = st.audio_frames ++ [chunk]
        ↔ st.recording = true)
      ∧ ∀ env : StopEnv,
          (audio_callback
              (stop_recording_and_transcribe st env).1 chunk status).1.audio_frames
            = (stop_recording_and_transcribe st env).1.audio_frames := by
  constructor
  · unfold audio_callback
    cases h : st.recording <;> simp [h]
  · intro env
    unfold audio_callback
    simp [stop_fst_recording st env]

/-! Monitor lemmas for C5. -/

theorem monitorTick_fst_inv (st : SimpleVisualIndicator.MonitorState) (t : Int) :
    (SimpleVisualIndicator.monitorTick st t).1.recording = st.recording
      ∧ (SimpleVisualIndicator.monitorTick st t).1.start_time = st.start_time
      ∧ (SimpleVisualIndicator.monitorTick st t).1.max_duration_sec
          = st.max_duration_sec := by
  simp only [SimpleVisualIndicator.monitorTick]
  repeat' split
  all_goals simp_all

theorem monitorTick_flag30 (st : SimpleVisualIndicator.MonitorState) (t : Int)
    (hrec : st.recording = true) (hst : optTruthy st.start_time = true) :
    (SimpleVisualIndicator.monitorTick st t).1.warning_30_shown
      = (st.warning_30_shown
         || SimpleVisualIndicator.hits30 st.max_duration_sec (st.start_time.getD 0) t) := by
  simp only [SimpleVisualIndicator.monitorTick, SimpleVisualIndicator.hits30]
  repeat' split
  all_goals simp_all

theorem monitorTick_count30 (st : SimpleVisualIndicator.MonitorState) (t : Int)
    (hrec : st.recording = true) (hst : optTruthy st.start_time = true) :
    SimpleVisualIndicator.countWarn30 (SimpleVisualIndicator.monitorTick st t).2
      = if st.warning_30_shown then 0
        else if SimpleVisualIndicator.hits30 st.max_duration_sec (st.start_time.getD 0) t
        then 1 else 0 := by
  have hguard : (st.recording && optTruthy st.start_time) = true := by
    rw [hrec, hst]; rfl
  have hhit : SimpleVisualIndicator.hits30 st.max_duration_sec (st.start_time.getD 0) t
      = decide (max 0 (st.max_duration_sec - (t - st.start_time.getD 0)) ≤ 30
        ∧ max 0 (st.max_duration_sec - (t - st.start_time.getD 0)) > 29) := rfl
  simp only [SimpleVisualIndicator.monitorTick, hguard, eq_self_iff_true, if_true, hhit,
             decide_eq_true_eq]
  split_ifs
  all_goals simp_all [SimpleVisualIndicator.countWarn30, countP, List.filter]

theorem monitorTick_flag10 (st : SimpleVisualIndicator.MonitorState) (t : Int)
    (hrec : st.recording = true) (hst : optTruthy st.start_time = true) :
    (SimpleVisualIndicator.monitorTick st t).1.warning_10_shown
      = (st.warning_10_shown
         || SimpleVisualIndicator.hits10 st.max_duration_sec (st.start_time.getD 0) t) := by
  simp only [SimpleVisualIndicator.monitorTick, SimpleVisualIndicator.hits10]
  repeat' split
  all_goals simp_all

theorem monitorTick_count10 (st : SimpleVisualIndicator.MonitorState) (t : Int)
    (hrec : st.recording = true) (hst : optTruthy st.start_time = true) :
    SimpleVisualIndicator.countWarn10 (SimpleVisualIndicator.monitorTick st t).2
      = if st.warning_10_shown then 0
        else if SimpleVisualIndicator.hits10 st.max_duration_sec (st.start_time.getD 0) t
        then 1 else 0 := by
  have hguard : (st.recording && optTruthy st.start_time) = true := by
    rw [hrec, hst]; rfl
  have hhit : SimpleVisualIndicator.hits10 st.max_duration_sec (st.start_time.getD 0) t
      = decide (max 0 (st.max_duration_sec - (t - st.start_time.getD 0)) ≤ 10
        ∧ max 0 (st.max_duration_sec - (t - st.start_time.getD 0)) > 9) := rfl
  simp only [SimpleVisualIndicator.monitorTick, hguard, eq_self_iff_true, if_true, hhit,
             decide_eq_true_eq]
  split_ifs
  all_goals simp_all [SimpleVisualIndicator.countWarn10, countP, List.filter]

theorem runMonitor_count30 (times : List Int) :
    ∀ st : SimpleVisualIndicator.MonitorState,
      st.recording = true → optTruthy st.start_time = true →
      SimpleVisualIndicator.countWarn30 (SimpleVisualIndicator.runMonitor st times).2
        = if st.warning_30_shown then 0
          else if times.any
                 (SimpleVisualIndicator.hits30 st.max_duration_sec (st.start_time.getD 0))
          then 1 else 0 := by
  induction times with
  | nil =>
      intro st h1 h2
      simp [SimpleVisualIndicator.runMonitor, SimpleVisualIndicator.countWarn30,
            countP_nil]
  | cons t rest ih =>
      intro st h1 h2
      obtain ⟨hr, hs, hm⟩ := monitorTick_fst_inv st t
      simp only [SimpleVisualIndicator.runMonitor, SimpleVisualIndicator.countWarn30,
                 countP_append]
      rw [show countP _ (SimpleVisualIndicator.monitorTick st t).2
            = SimpleVisualIndicator.countWarn30 (SimpleVisualIndicator.monitorTick st t).2
          from rfl,
          show countP _
              (SimpleVisualIndicator.runMonitor (SimpleVisualIndicator.monitorTick st t).1 rest).2
            = SimpleVisualIndicator.countWarn30
                (SimpleVisualIndicator.runMonitor (SimpleVisualIndicator.monitorTick st t).1 rest).2
          from rfl]
      rw [monitorTick_count30 st t h1 h2,
          ih (SimpleVisualIndicator.monitorTick st t).1 (hr.trans h1) (hs ▸ h2)]
      rw [monitorTick_flag30 st t h1 h2, hm, hs]
      by_cases h30 : st.warning_30_shown
        <;> by_cases hh : SimpleVisualIndicator.hits30 st.max_duration_sec
              (st.start_time.getD 0) t
        <;> simp [h30, hh]

theorem runMonitor_count10 (times : List Int) :
    ∀ st : SimpleVisualIndicator.MonitorState,
      st.recording = true → optTruthy st.start_time = true →
      SimpleVisualIndicator.countWarn10 (SimpleVisualIndicator.runMonitor st times).2
        = if st.warning_10_shown then 0
          else if times.any
                 (SimpleVisualIndicator.hits10 st.max_duration_sec (st.start_time.getD 0))
          then 1 else 0 := by
  induction times with
  | nil =>
      intro st h1 h2
      simp [SimpleVisualIndicator.runMonitor, SimpleVisualIndicator.countWarn10,
            countP_nil]
  | cons t rest ih =>
      intro st h1 h2
      obtain ⟨hr, hs, hm⟩ := monitorTick_fst_inv st t
      simp only [SimpleVisualIndicator.runMonitor, SimpleVisualIndicator.countWarn10,
                 countP_append]
      rw [show countP _ (SimpleVisualIndicator.monitorTick st t).2
            = SimpleVisualIndicator.countWarn10 (SimpleVisualIndicator.monitorTick st t).2
          from rfl,
          show countP _
              (SimpleVisualIndicator.runMonitor (SimpleVisualIndicator.monitorTick st t).1 rest).2
            = SimpleVisualIndicator.countWarn10
                (SimpleVisualIndicator.runMonitor (SimpleVisualIndicator.monitorTick st t).1 rest).2
          from rfl]
      rw [monitorTick_count10 st t h1 h2,
          ih (SimpleVisualIndicator.monitorTick st t).1 (hr.trans h1) (hs ▸ h2)]
      rw [monitorTick_flag10 st t h1 h2, hm, hs]
      by_cases h10 : st.warning_10_shown
        <;> by_cases hh : SimpleVisualIndicator.hits10 st.max_duration_sec
              (st.start_time.getD 0) t
        <;> simp [h10, hh]

/-- C5 counterexample: a 60-second session started at `t = 100` whose
monitor iterations land at elapsed times `0, 29, 31, 50, 51, 61` — the
session runs past its maximum duration and the flags were reset at start,
yet the 30-second warning fires zero times (the iteration at elapsed 30
was delayed past the narrow `remaining <= 30 and remaining > 29` window)
while the 10-second warning fires once. -/
theorem monitor_30s_warning_skipped :
    SimpleVisualIndicator.countWarn30
        (SimpleVisualIndicator.runMonitor
          (SimpleVisualIndicator.start_recording exMonitor 100)
          [100, 129, 131, 150, 151, 161]).2 = 0
      ∧ SimpleVisualIndicator.countWarn10
          (SimpleVisualIndicator.runMonitor
            (SimpleVisualIndicator.start_recording exMonitor 100)
            [100, 129, 131, 150, 151, 161]).2 = 1 := by
  constructor <;> decide

/-- C5 (amended): each threshold fires at most once per session — the
already-fired flags are reset by `start_recording` — and fires exactly
once iff some monitor iteration observes a remaining time inside that
threshold's narrow one-second window; an iteration schedule that skips
the window produces zero warnings for that threshold. -/
theorem monitor_warning_fires_iff_window_hit
    (st0 : SimpleVisualIndicator.MonitorState) (now0 : Int) (times : List Int)
    (hnow : now0 ≠ 0) :
    SimpleVisualIndicator.countWarn30
        (SimpleVisualIndicator.runMonitor
          (SimpleVisualIndicator.start_recording st0 now0) times).2
      = (if times.any (SimpleVisualIndicator.hits30 st0.max_duration_sec now0)
         then 1 else 0)
    ∧ SimpleVisualIndicator.countWarn10
        (SimpleVisualIndicator.runMonitor
          (SimpleVisualIndicator.start_recording st0 now0) times).2
      = (if times.any (SimpleVisualIndicator.hits10 st0.max_duration_sec now0)
         then 1 else 0) := by
  have h1 : (SimpleVisualIndicator.start_recording st0 now0).recording = true := rfl
  have h2 : optTruthy (SimpleVisualIndicator.start_recording st0 now0).start_time = true := by
    simp [SimpleVisualIndicator.start_recording, optTruthy, hnow]
  constructor
  · rw [runMonitor_count30 times _ h1 h2]
    simp [SimpleVisualIndicator.start_recording]
  · rw [runMonitor_count10 times _ h1 h2]
    simp [SimpleVisualIndicator.start_recording]

theorem monitor_warning_fires_iff_window_hit_witness :
    (100 : Int) ≠ 0
      ∧ SimpleVisualIndicator.countWarn30
          (SimpleVisualIndicator.runMonitor
            (SimpleVisualIndicator.start_recording exMonitor 100)
            [100, 130, 150, 161]).2
        = (if ([100, 130, 150, 161] : List Int).any
              (SimpleVisualIndicator.hits30 exMonitor.max_duration_sec 100)
           then 1 else 0) :=
  ⟨by decide,
   (monitor_warning_fires_iff_window_hit exMonitor 100 [100, 130, 150, 161] (by decide)).1⟩

/-- C6: when the engine returns text whose stripped form is non-empty,
the pipeline forwards exactly that text to the clipboard followed by a
paste-at-cursor, forwards it to the session-log collaborator with the
measured duration (`now - startedAt`) and the session start time, and
forwards it to the presentation collaborator as a completion event. -/
theorem stop_success_delivers (st : AppState) (env : StopEnv) (raw : String) (t0 : Int)
    (hrec : st.recording = true) (hframes : st.audio_frames ≠ [])
    (hsave : (saveWav env).1 = true) (heng : env.engineResult = EngineResult.ok raw)
    (htext : (pyStrip raw) ≠ "") (hstart : st.recording_start_time = some t0) (ht0 : t0 ≠ 0)
    (hlog : st.loggerPresent = true) (hvis : st.visualPresent = true) :
    Event.clipboardCopy (pyStrip raw) ∈ (stop_recording_and_transcribe st env).2
      ∧ Event.pasteAtCursor ∈ (stop_recording_and_transcribe st env).2
      ∧ Event.sessionLogTranscription (pyStrip raw) (some (env.now - t0)) (some t0)
          ∈ (stop_recording_and_transcribe st env).2
      ∧ Event.visualComplete (pyStrip raw) ∈ (stop_recording_and_transcribe st env).2 := by
  rw [stop_saved_events st env hrec hframes hsave,
      transcriptionOutcome_ok_events st env raw t0 heng htext hstart ht0 hlog hvis]
  refine ⟨?_, ?_, ?_, ?_⟩ <;> simp

theorem stop_success_delivers_witness :
    exCapturing.recording = true ∧ exCapturing.audio_frames ≠ []
      ∧ (saveWav exEnvOk).1 = true
      ∧ exEnvOk.engineResult = EngineResult.ok " hello world "
      ∧ (pyStrip " hello world ") ≠ ""
      ∧ exCapturing.recording_start_time = some 100 ∧ (100 : Int) ≠ 0
      ∧ exCapturing.loggerPresent = true ∧ exCapturing.visualPresent = true
      ∧ Event.clipboardCopy (pyStrip " hello world ")
          ∈ (stop_recording_and_transcribe exCapturing exEnvOk).2 :=
  ⟨by decide, by decide, by decide, rfl, by decide, rfl, by decide, rfl, rfl,
   (stop_success_delivers exCapturing exEnvOk " hello world " 100 (by decide) (by decide)
      (by decide) rfl (by decide) rfl (by decide) rfl rfl).1⟩

/-- C7 counterexample: with at least one captured frame and all three
WAV write methods failing (a serialization failure), the stop path
forwards nothing to the session-log collaborator and no error to the
presentation collaborator — contradicting the claim that every
serialization failure is forwarded as a failure outcome to both. -/
theorem serialization_failure_not_forwarded :
    exCapturing.audio_frames ≠ []
      ∧ (saveWav exEnvSaveFail).1 = false
      ∧ countP isSessionLogEvent
          (stop_recording_and_transcribe exCapturing exEnvSaveFail).2 = 0
      ∧ countP isVisualError
          (stop_recording_and_transcribe exCapturing exEnvSaveFail).2 = 0 :=
  ⟨by decide, by decide, by decide, by decide⟩

/-- C7 (amended): a failure raised by the speech-to-text engine is
forwarded as a failure outcome (with message) to both the session-log
and presentation collaborators, with no clipboard or paste action, and
artifact cleanup is still attempted (an `os.remove` call is made, and
the artifact is gone whenever that removal succeeds); a serialization
failure (all WAV write methods failing) also aborts with no clipboard
action and cleanup still attempted, but forwards no failure outcome to
either collaborator. -/
theorem engine_failure_forwards_failure_outcome (st : AppState) (env : StopEnv)
    (msg : String) (t0 : Int)
    (hrec : st.recording = true) (hframes : st.audio_frames ≠ [])
    (hsave : (saveWav env).1 = true) (heng : env.engineResult = EngineResult.err msg)
    (hstart : st.recording_start_time = some t0) (ht0 : t0 ≠ 0)
    (hlog : st.loggerPresent = true) (hvis : st.visualPresent = true) :
    (Event.sessionLogError ("Transcription failed: " ++ msg) (some t0)
        ∈ (stop_recording_and_transcribe st env).2
      ∧ Event.visualError "Transcription failed" ∈ (stop_recording_and_transcribe st env).2
      ∧ countP isClipboardCopy (stop_recording_and_transcribe st env).2 = 0
      ∧ countP isPaste (stop_recording_and_transcribe st env).2 = 0
      ∧ Event.wavRemove ∈ (stop_recording_and_transcribe st env).2
      ∧ (env.removeOk = true →
          (stop_recording_and_transcribe st env).1.tempFileExists = false))
    ∧ (∀ env2 : StopEnv, (saveWav env2).1 = false →
        countP isSessionLogEvent (stop_recording_and_transcribe st env2).2 = 0
        ∧ countP isVisualError (stop_recording_and_transcribe st env2).2 = 0
        ∧ countP isClipboardCopy (stop_recording_and_transcribe st env2).2 = 0
        ∧ (env2.removeOk = true →
            (stop_recording_and_transcribe st env2).1.tempFileExists = false)) := by
  constructor
  · have hev := stop_saved_events st env hrec hframes hsave
    rw [transcriptionOutcome_err_events st env msg t0 heng hstart ht0 hlog hvis] at hev
    refine ⟨?_, ?_, ?_, ?_, ?_, fun hrem => stop_fst_temp st env hrec hrem⟩
    · rw [hev]; simp
    · rw [hev]; simp
    · rw [hev]
      simp [countP_append, countP_cons, countP_nil, countP_ite,
            stopPrefix_count_eq_zero _ isClipboardCopy rfl rfl rfl rfl,
            saveWav_count_eq_zero _ isClipboardCopy rfl (fun _ => rfl) (fun _ => rfl)
              (fun _ => rfl), isClipboardCopy]
    · rw [hev]
      simp [countP_append, countP_cons, countP_nil, countP_ite,
            stopPrefix_count_eq_zero _ isPaste rfl rfl rfl rfl,
            saveWav_count_eq_zero _ isPaste rfl (fun _ => rfl) (fun _ => rfl)
              (fun _ => rfl), isPaste]
    · rw [hev]
      by_cases hrok : env.removeOk = true <;> simp [hrok]
  · intro env2 hsave2
    have hev := stop_savefail_events st env2 hrec hframes hsave2
    refine ⟨?_, ?_, ?_, fun hrem => stop_fst_temp st env2 hrec hrem⟩
    · rw [hev]
      simp [countP_append, countP_cons, countP_nil, countP_ite,
            stopPrefix_count_eq_zero _ isSessionLogEvent rfl rfl rfl rfl,
            saveWav_count_eq_zero _ isSessionLogEvent rfl (fun _ => rfl) (fun _ => rfl)
              (fun _ => rfl), isSessionLogEvent]
    · rw [hev]
      simp [countP_append, countP_cons, countP_nil, countP_ite,
            stopPrefix_count_eq_zero _ isVisualError rfl rfl rfl rfl,
            saveWav_count_eq_zero _ isVisualError rfl (fun _ => rfl) (fun _ => rfl)
              (fun _ => rfl), isVisualError]
    · rw [hev]
      simp [countP_append, countP_cons, countP_nil, countP_ite,
            stopPrefix_count_eq_zero _ isClipboardCopy rfl rfl rfl rfl,
            saveWav_count_eq_zero _ isClipboardCopy rfl (fun _ => rfl) (fun _ => rfl)
              (fun _ => rfl), isClipboardCopy]

theorem engine_failure_forwards_failure_outcome_witness :
    exCapturing.recording = true ∧ exCapturing.audio_frames ≠ []
      ∧ (saveWav exEnvEngineErr).1 = true
      ∧ exEnvEngineErr.engineResult = EngineResult.err "boom"
      ∧ exCapturing.recording_start_time = some 100 ∧ (100 : Int) ≠ 0
      ∧ exCapturing.loggerPresent = true ∧ exCapturing.visualPresent = true
      ∧ Event.sessionLogError ("Transcription failed: " ++ "boom") (some 100)
          ∈ (stop_recording_and_transcribe exCapturing exEnvEngineErr).2 :=
  ⟨by decide, by decide, by decide, rfl, rfl, by decide, rfl, rfl,
   (engine_failure_forwards_failure_outcome exCapturing exEnvEngineErr "boom" 100
      (by decide) (by decide) (by decide) rfl rfl (by decide) rfl rfl).1.1⟩

/-- C8: when opening the input stream fails, `start_recording` reverts
to the idle state: the recording flag is cleared, no auto-stop timer is
armed (none was armed before and no arm request is emitted), the sample
buffer is empty, and no session-log record is produced for the failed
attempt. -/
theorem start_stream_failure_reverts_idle (st : AppState) (env : StartEnv)
    (hidle : st.recording = false) (htimer : st.timerArmed = false)
    (hfail : env.streamOpenOk = false) :
    (start_recording st env).1.recording = false
      ∧ (start_recording st env).1.timerArmed = false
      ∧ (start_recording st env).1.audio_frames = []
      ∧ countP isSessionLogEvent (start_recording st env).2 = 0
      ∧ countP isTimerArm (start_recording st env).2 = 0 := by
  simp [start_recording, hidle, hfail, htimer, countP_cons, countP_nil,
        isSessionLogEvent, isTimerArm]

theorem start_stream_failure_reverts_idle_witness :
    exIdle.recording = false ∧ exIdle.timerArmed = false
      ∧ exStartFail.streamOpenOk = false
      ∧ (start_recording exIdle exStartFail).1.recording = false :=
  ⟨rfl, rfl, rfl,
   (start_stream_failure_reverts_idle exIdle exStartFail rfl rfl rfl).1⟩

/-- C9: with no session file (`session_file_path = None`), every one of
`log_transcription`, `log_error`, `add_session_note` and `close_session`
returns `False` with the state unchanged and nothing written; and for
any logger state, a write failure is caught and converted into a `False`
return. -/
theorem logger_no_session_file_noop (st : SessionLogger.LoggerState)
    (text msg note : String) (dur rst : Option Int) (now : Int) (writeOk : Bool)
    (h : st.session_file_path = none) :
    SessionLogger.log_transcription st text dur rst now writeOk = (false, st, [])
      ∧ SessionLogger.log_error st msg rst now writeOk = (false, st, [])
      ∧ SessionLogger.add_session_note st note now writeOk = (false, st, [])
      ∧ SessionLogger.close_session st now writeOk = (false, st, [])
      ∧ (∀ st2 : SessionLogger.LoggerState,
           (SessionLogger.log_transcription st2 text dur rst now false).1 = false
           ∧ (SessionLogger.log_error st2 msg rst now false).1 = false
           ∧ (SessionLogger.add_session_note st2 note now false).1 = false
           ∧ (SessionLogger.close_session st2 now false).1 = false) := by
  refine ⟨?_, ?_, ?_, ?_, ?_⟩
  · simp [SessionLogger.log_transcription, h]
  · simp [SessionLogger.log_error, h]
  · simp [SessionLogger.add_session_note, h]
  · simp [SessionLogger.close_session, h]
  · intro st2
    refine ⟨?_, ?_, ?_, ?_⟩
    · cases hp : st2.session_file_path <;> simp [SessionLogger.log_transcription, hp]
    · cases hp : st2.session_file_path <;> simp [SessionLogger.log_error, hp]
    · cases hp : st2.session_file_path <;> simp [SessionLogger.add_session_note, hp]
    · cases hp : st2.session_file_path <;> simp [SessionLogger.close_session, hp]

theorem logger_no_session_file_noop_witness :
    exLoggerNoFile.session_file_path = none
      ∧ SessionLogger.log_transcription exLoggerNoFile "hello" (some 2) (some 100) 102 true
          = (false, exLoggerNoFile, []) :=
  ⟨rfl,
   (logger_no_session_file_noop exLoggerNoFile "hello" "m" "n" (some 2) (some 100) 102 true
      rfl).1⟩

/-- C10: on a successful `log_transcription` with metadata enabled, the
duration annotation is written iff the supplied duration is truthy: both
`None` and an exact `0` are silently omitted. -/
theorem log_duration_annotation_iff_truthy (st : SessionLogger.LoggerState)
    (text : String) (dur rst : Option Int) (now : Int) (p : String)
    (hpath : st.session_file_path = some p) (hmeta : st.include_metadata = true) :
    (∃ d, SessionLogger.LogWrite.durationAnnot d
        ∈ (SessionLogger.log_transcription st text dur rst now true).2.2)
      ↔ ∃ d, dur = some d ∧ d ≠ 0 := by
  cases dur with
  | none => simp [SessionLogger.log_transcription, hpath, hmeta, optTruthy]
  | some d =>
      by_cases hd : d = 0 <;>
        simp [SessionLogger.log_transcription, hpath, hmeta, optTruthy, hd]

theorem log_duration_annotation_iff_truthy_witness :
    exLogger.session_file_path = some "transcription_logs/VoiceToText_Session_100.txt"
      ∧ exLogger.include_metadata = true
      ∧ ((∃ d, SessionLogger.LogWrite.durationAnnot d
            ∈ (SessionLogger.log_transcription exLogger "hello" (some 0) (some 100)
                102 true).2.2)
          ↔ ∃ d, (some 0 : Option Int) = some d ∧ d ≠ 0) :=
  ⟨rfl, rfl,
   log_duration_annotation_iff_truthy exLogger "hello" (some 0) (some 100) 102 _ rfl rfl⟩

end QuickTalk
